import Mathlib

set_option maxRecDepth 40000

/-!
Shallow embedding of the page-storage layer (`src/page.rs`) of the
PoloDBxTwo repository, together with theorems settling the spec claims.

Modelling conventions:
- bytes are `Nat` values (each byte written by the code is `< 256` by
  construction of the `to_*_bytes` helpers);
- machine integers are `Nat`, with `% 256` truncation exactly where the
  Rust byte-decomposition performs it;
- `Vec<u8>` is `List Nat`; the in-place mutation of `&mut self` methods
  becomes explicit state passing (each mutator returns the new page);
- a Rust `Result<(), SpaceNotEnough>` becomes `Except SpaceNotEnough Unit`,
  returned next to the updated page state;
- operations that can panic (slice indexing out of bounds, `expect`,
  explicit `panic!`) return `Option`, `none` being the panic;
- Rust strings are modelled by their UTF-8 byte sequences (`List Nat`),
  which is the only view of them the page code manipulates.
-/

namespace PoloPage

/-- Error value for a sequential write that does not fit (`SpaceNotEnough`). -/
inductive SpaceNotEnough where
  | mk
deriving DecidableEq

/-- The fixed page buffer (`RawPage`): page id, backing bytes, write cursor. -/
structure RawPage where
  page_id : Nat
  data : List Nat
  pos : Nat
deriving DecidableEq

namespace RawPage

/-- Constructor `RawPage::new`: a zero-filled buffer of `size` bytes, cursor 0. -/
def new (page_id size : Nat) : RawPage :=
  ⟨page_id, List.replicate size 0, 0⟩

/-- Byte-by-byte copy of `d` into `data` starting at index `pos`; this models
the `copy_from` raw memory copy used by `put`/`put_str` (which the guard in
those functions only ever invokes in bounds). -/
def writeBytes (data : List Nat) (pos : Nat) : List Nat → List Nat
  | [] => data
  | b :: bs => writeBytes (data.set pos b) (pos + 1) bs

/-- Method `RawPage::put`: sequential write at the cursor. Fails with
`SpaceNotEnough` (leaving the page untouched) when the bytes do not fit;
otherwise copies them in and advances the cursor. -/
def put (p : RawPage) (d : List Nat) : Except SpaceNotEnough Unit × RawPage :=
  if d.length + p.pos > p.data.length then
    (Except.error SpaceNotEnough.mk, p)
  else
    (Except.ok (), { p with data := writeBytes p.data p.pos d, pos := p.pos + d.length })

/-- Method `RawPage::put_str`: same body as `put`, applied to the UTF-8 bytes
of the argument string. -/
def put_str (p : RawPage) (s : List Nat) : Except SpaceNotEnough Unit × RawPage :=
  if s.length + p.pos > p.data.length then
    (Except.error SpaceNotEnough.mk, p)
  else
    (Except.ok (), { p with data := writeBytes p.data p.pos s, pos := p.pos + s.length })

/-- Method `RawPage::get_u8`: direct index `data[pos]`; `none` is the
out-of-bounds panic. -/
def get_u8 (p : RawPage) (pos : Nat) : Option Nat :=
  p.data[pos]?

/-- Method `RawPage::put_u8`: `data[pos] = byte` at the cursor; does not
advance the cursor; `none` is the out-of-bounds panic. -/
def put_u8 (p : RawPage) (d : Nat) : Option RawPage :=
  if p.pos < p.data.length then
    some { p with data := p.data.set p.pos d }
  else
    none

/-- Little-endian byte decomposition `u16::to_le_bytes` (used by `put_u16`). -/
def u16_le_bytes (v : Nat) : List Nat :=
  [v % 256, v / 256 % 256]

/-- Method `RawPage::put_u16`: writes `data.to_le_bytes()` via `put`.
Note the source encodes little-endian here although every other width
encodes big-endian. -/
def put_u16 (p : RawPage) (d : Nat) : Except SpaceNotEnough Unit × RawPage :=
  p.put (u16_le_bytes d)

/-- Method `RawPage::get_u16`: reads 2 bytes at `pos` and decodes them
big-endian (`u16::from_be_bytes`); `none` is the slice-indexing panic. -/
def get_u16 (p : RawPage) (pos : Nat) : Option Nat := do
  let b0 ← p.data[pos]?
  let b1 ← p.data[pos + 1]?
  pure (b0 * 256 + b1)

/-- Big-endian byte decomposition `u32::to_be_bytes` (used by `put_u32`). -/
def u32_be_bytes (v : Nat) : List Nat :=
  [v / 2 ^ 24 % 256, v / 2 ^ 16 % 256, v / 2 ^ 8 % 256, v % 256]

/-- Method `RawPage::put_u32`: writes `data.to_be_bytes()` via `put`. -/
def put_u32 (p : RawPage) (d : Nat) : Except SpaceNotEnough Unit × RawPage :=
  p.put (u32_be_bytes d)

/-- Method `RawPage::get_u32`: reads 4 bytes at `pos`, big-endian decode;
`none` is the slice-indexing panic. -/
def get_u32 (p : RawPage) (pos : Nat) : Option Nat := do
  let b0 ← p.data[pos]?
  let b1 ← p.data[pos + 1]?
  let b2 ← p.data[pos + 2]?
  let b3 ← p.data[pos + 3]?
  pure (((b0 * 256 + b1) * 256 + b2) * 256 + b3)

/-- Big-endian byte decomposition `u64::to_be_bytes` (used by `put_u64`). -/
def u64_be_bytes (v : Nat) : List Nat :=
  [v / 2 ^ 56 % 256, v / 2 ^ 48 % 256, v / 2 ^ 40 % 256, v / 2 ^ 32 % 256,
   v / 2 ^ 24 % 256, v / 2 ^ 16 % 256, v / 2 ^ 8 % 256, v % 256]

/-- Method `RawPage::put_u64`: writes `data.to_be_bytes()` via `put`. -/
def put_u64 (p : RawPage) (d : Nat) : Except SpaceNotEnough Unit × RawPage :=
  p.put (u64_be_bytes d)

/-- Method `RawPage::get_u64`: reads 8 bytes at `pos`, big-endian decode;
`none` is the slice-indexing panic. -/
def get_u64 (p : RawPage) (pos : Nat) : Option Nat := do
  let b0 ← p.data[pos]?
  let b1 ← p.data[pos + 1]?
  let b2 ← p.data[pos + 2]?
  let b3 ← p.data[pos + 3]?
  let b4 ← p.data[pos + 4]?
  let b5 ← p.data[pos + 5]?
  let b6 ← p.data[pos + 6]?
  let b7 ← p.data[pos + 7]?
  pure (((((((b0 * 256 + b1) * 256 + b2) * 256 + b3) * 256 + b4) * 256 + b5) * 256
      + b6) * 256 + b7)

/-- Method `RawPage::seek`: repositions the cursor; performs no bounds check. -/
def seek (p : RawPage) (pos : Nat) : RawPage :=
  { p with pos := pos }

end RawPage

/-- In-memory free list (`FreeList`): overflow-page link and entry vector. -/
structure FreeList where
  free_list_page_id : Nat
  data : List Nat
deriving DecidableEq

/-- Offset of the free-list region inside the header page (`FREE_LIST_OFFSET`). -/
def FREE_LIST_OFFSET : Nat := 2048

/-- Function `FreeList::from_raw`: reads the size and the overflow link, then
resizes a fresh vector to `size` zeros and, for each `i < size`, calls
`Vec::insert(i, entry_i)` — an inserting (shifting) operation, exactly as in
the source. `none` is the out-of-bounds read panic. -/
def FreeList.from_raw (raw_page : RawPage) : Option FreeList := do
  let size ← raw_page.get_u32 FREE_LIST_OFFSET
  let free_list_page_id ← raw_page.get_u32 (FREE_LIST_OFFSET + 4)
  let d0 := List.replicate size 0
  let d ← (List.range size).foldlM (fun acc i => do
      let e ← raw_page.get_u32 (FREE_LIST_OFFSET + 8 + i * 4)
      pure (List.insertIdx i e acc)) d0
  pure ⟨free_list_page_id, d⟩

namespace header_page_utils

/-- UTF-8 bytes of the format signature string `HEADER_DESP`,
"PipeappleDB Format v0.1". -/
def HEADER_DESP : List Nat :=
  [80, 105, 112, 101, 97, 112, 112, 108, 101, 68, 66, 32,
   70, 111, 114, 109, 97, 116, 32, 118, 48, 46, 49]

/-- Offset of the sector-size field (`SECTOR_SIZE_OFFSET`). -/
def SECTOR_SIZE_OFFSET : Nat := 40

/-- Offset of the page-size field (`PAGE_SIZE_OFFSET`). -/
def PAGE_SIZE_OFFSET : Nat := 44

/-- Function `set_title`: seek to 0 then `put_str`, discarding the result
(`let _ = ...`), so a failed write leaves only the cursor moved by the seek. -/
def set_title (page : RawPage) (title : List Nat) : RawPage :=
  ((page.seek 0).put_str title).2

/-- Loop body of `get_title`'s scan: examines indices `i, i+1, ...` while the
iteration budget (second argument) lasts. `none` covers both panics of the
source: indexing past the end of `data`, and exhausting the 32 positions
without finding a zero. -/
def scan_aux (data : List Nat) : Nat → Nat → Option Nat
  | _, 0 => none
  | i, fuel + 1 =>
    match data[i]? with
    | none => none
    | some b => if b = 0 then some i else scan_aux data (i + 1) fuel

/-- Scan of `get_title`'s loop: looks for the first zero byte at indices
`i, i+1, ..., 31` (the loop `for i in 0..32`). -/
def title_zero_scan (data : List Nat) (i : Nat) : Option Nat :=
  scan_aux data i (32 - i)

/-- Function `get_title`: finds the first zero byte among the first 32 and
returns the bytes strictly before it (the source then decodes them with
`String::from_utf8_lossy`; we stay at the byte level). `none` is the panic. -/
def get_title (page : RawPage) : Option (List Nat) :=
  (title_zero_scan page.data 0).map (fun z => page.data.take z)

/-- Function `set_version`: seek to 32 then `put`, discarding the result. -/
def set_version (page : RawPage) (version : List Nat) : RawPage :=
  ((page.seek 32).put version).2

/-- Function `get_version`: reads the four bytes at 32..35; `none` is the
indexing panic. -/
def get_version (page : RawPage) : Option (List Nat) := do
  let b0 ← page.data[32]?
  let b1 ← page.data[33]?
  let b2 ← page.data[34]?
  let b3 ← page.data[35]?
  pure [b0, b1, b2, b3]

/-- Function `set_sector_size`: seek to 40 then `put_u32`, discarding the
result. -/
def set_sector_size (page : RawPage) (sector_size : Nat) : RawPage :=
  ((page.seek SECTOR_SIZE_OFFSET).put_u32 sector_size).2

/-- Function `get_sector_size`. -/
def get_sector_size (page : RawPage) : Option Nat :=
  page.get_u32 SECTOR_SIZE_OFFSET

/-- Function `set_page_size`: seek to 44 then `put_u32`, discarding the
result. -/
def set_page_size (page : RawPage) (page_size : Nat) : RawPage :=
  ((page.seek PAGE_SIZE_OFFSET).put_u32 page_size).2

/-- Function `get_page_size`. -/
def get_page_size (page : RawPage) : Option Nat :=
  page.get_u32 PAGE_SIZE_OFFSET

/-- Function `get_free_list_size`. -/
def get_free_list_size (page : RawPage) : Option Nat :=
  page.get_u32 FREE_LIST_OFFSET

/-- Function `set_free_list_size`: seek to 2048 then `put_u32`, discarding
the result. -/
def set_free_list_size (page : RawPage) (size : Nat) : RawPage :=
  ((page.seek FREE_LIST_OFFSET).put_u32 size).2

/-- Function `get_free_list_content`: reads the `index`-th inline entry. -/
def get_free_list_content (page : RawPage) (index : Nat) : Option Nat :=
  page.get_u32 (index * 4 + FREE_LIST_OFFSET + 8)

/-- Function `init`: writes the signature title, a zeroed version, sector
size 4096 and page size 4096, in that order. -/
def init (page : RawPage) : RawPage :=
  set_page_size (set_sector_size (set_version (set_title page HEADER_DESP) [0, 0, 0, 0]) 4096) 4096

end header_page_utils

/-- The content-type discriminant (`ContentPageType`). -/
inductive ContentPageType where
  | Undefined
  | FileHeader
  | Collection
  | BTreeNode
deriving DecidableEq

/-- Function `ContentPageType::from_u8`; `none` is the
`panic!("unknown content type")` branch. -/
def ContentPageType.from_u8 (data : Nat) : Option ContentPageType :=
  match data with
  | 0 => some ContentPageType.Undefined
  | 1 => some ContentPageType.FileHeader
  | 2 => some ContentPageType.Collection
  | 3 => some ContentPageType.BTreeNode
  | _ => none

/-- The `ty as u8` cast of the discriminant. -/
def ContentPageType.toU8 : ContentPageType → Nat
  | ContentPageType.Undefined => 0
  | ContentPageType.FileHeader => 1
  | ContentPageType.Collection => 2
  | ContentPageType.BTreeNode => 3

/-- Offset of the content-type byte (`CONTENT_TY_OFFSET`). -/
def CONTENT_TY_OFFSET : Nat := 16

/-- Typed wrapper over a raw page (`ContentPageWrapper`). The weak database
context reference of the source carries no data relevant to these
operations and is modelled by `Unit`. -/
structure ContentPageWrapper where
  ctx : Unit
  raw : RawPage
  start_page_id : Nat
deriving DecidableEq

namespace ContentPageWrapper

/-- Constructor `ContentPageWrapper::new`: records the wrapped page's id as
the immutable `start_page_id`. -/
def new (weak_ctx : Unit) (page : RawPage) : ContentPageWrapper :=
  ⟨weak_ctx, page, page.page_id⟩

/-- Method `ContentPageWrapper::magic_key`: the source body is
`self.raw.get_u16(0);` — it performs the read and discards the value, so the
return type is unit (`none` is the indexing panic inside `get_u16`). -/
def magic_key (w : ContentPageWrapper) : Option Unit :=
  (w.raw.get_u16 0).map (fun _ => ())

/-- Method `ContentPageWrapper::set_magic_key`: seek to 0 then `put_u16`,
with `.expect(...)` on the result (`none` is that panic). -/
def set_magic_key (w : ContentPageWrapper) (key : Nat) : Option ContentPageWrapper :=
  let r := (w.raw.seek 0).put_u16 key
  match r.1 with
  | Except.ok _ => some { w with raw := r.2 }
  | Except.error _ => none

/-- Method `ContentPageWrapper::set_next_page_id`: seek to 32 then `put_u32`,
with `.expect(...)` on the result. -/
def set_next_page_id (w : ContentPageWrapper) (next_pid : Nat) : Option ContentPageWrapper :=
  let r := (w.raw.seek 32).put_u32 next_pid
  match r.1 with
  | Except.ok _ => some { w with raw := r.2 }
  | Except.error _ => none

/-- Method `ContentPageWrapper::get_next_page_id`. -/
def get_next_page_id (w : ContentPageWrapper) : Option Nat :=
  w.raw.get_u32 32

/-- Method `ContentPageWrapper::ty`: reads the byte at offset 16 and decodes
it with `from_u8` (`none` covers both the indexing panic and the
unknown-discriminant panic). -/
def ty (w : ContentPageWrapper) : Option ContentPageType := do
  let ty8 ← w.raw.get_u8 CONTENT_TY_OFFSET
  ContentPageType.from_u8 ty8

/-- Method `ContentPageWrapper::set_ty`: seek to offset 16 then `put_u8` of
the discriminant byte. -/
def set_ty (w : ContentPageWrapper) (t : ContentPageType) : Option ContentPageWrapper :=
  ((w.raw.seek CONTENT_TY_OFFSET).put_u8 t.toU8).map (fun r => { w with raw := r })

end ContentPageWrapper

/-- States of a page buffer reachable from `new` through the sequential and
typed writers, excluding `seek` (which repositions the cursor without any
bounds check). -/
inductive Reached : RawPage → Prop where
  | new (pid size : Nat) : Reached (RawPage.new pid size)
  | put (p : RawPage) (d : List Nat) : Reached p → Reached (p.put d).2
  | put_str (p : RawPage) (s : List Nat) : Reached p → Reached (p.put_str s).2
  | put_u8 (p : RawPage) (d : Nat) (q : RawPage) :
      Reached p → p.put_u8 d = some q → Reached q
  | put_u16 (p : RawPage) (d : Nat) : Reached p → Reached (p.put_u16 d).2
  | put_u32 (p : RawPage) (d : Nat) : Reached p → Reached (p.put_u32 d).2
  | put_u64 (p : RawPage) (d : Nat) : Reached p → Reached (p.put_u64 d).2

/-- Concrete header page whose free-list region holds size 1 (at offset
2048), overflow link 7 (at offset 2052) and the single entry 42 (at offset
2056); everything else is zero and the total capacity is 4096. -/
def c3_page : RawPage :=
  ⟨0, List.replicate 2048 0 ++
      ([0, 0, 0, 1, 0, 0, 0, 7, 0, 0, 0, 42] ++ List.replicate 2036 0), 0⟩

/-- Buffer contents after `init`'s first write on a fresh 4096-byte page:
the signature title at offset 0. -/
def c5_d1 : List Nat :=
  RawPage.writeBytes (List.replicate 4096 0) 0 header_page_utils.HEADER_DESP

/-- Buffer contents after `init`'s second write: the zeroed version at 32. -/
def c5_d2 : List Nat := RawPage.writeBytes c5_d1 32 [0, 0, 0, 0]

/-- Buffer contents after `init`'s third write: sector size 4096,
big-endian `[0, 0, 16, 0]`, at 40. -/
def c5_d3 : List Nat := RawPage.writeBytes c5_d2 40 [0, 0, 16, 0]

/-- Buffer contents after `init`'s fourth write: page size 4096,
big-endian `[0, 0, 16, 0]`, at 44. -/
def c5_d4 : List Nat := RawPage.writeBytes c5_d3 44 [0, 0, 16, 0]

/-! Helper lemmas about the embedding. -/

namespace RawPage

/-- Writing bytes never changes the backing buffer's length. -/
theorem length_writeBytes : ∀ (d data : List Nat) (pos : Nat),
    (writeBytes data pos d).length = data.length
  | [], _, _ => rfl
  | b :: bs, data, pos => by
      rw [writeBytes, length_writeBytes bs (data.set pos b) (pos + 1), List.length_set]

/-- Pointwise description of an in-bounds bulk write. -/
theorem getElem?_writeBytes : ∀ (d data : List Nat) (pos : Nat),
    pos + d.length ≤ data.length → ∀ (i : Nat),
    (writeBytes data pos d)[i]? =
      if pos ≤ i ∧ i < pos + d.length then d[i - pos]? else data[i]?
  | [], data, pos, _, i => by
      rw [writeBytes, if_neg (by simp only [List.length_nil]; omega)]
  | b :: bs, data, pos, hle, i => by
      have hlen : (data.set pos b).length = data.length := List.length_set ..
      have hle' : pos + 1 + bs.length ≤ (data.set pos b).length := by
        rw [hlen]; simp only [List.length_cons] at hle; omega
      rw [writeBytes, getElem?_writeBytes bs (data.set pos b) (pos + 1) hle' i]
      by_cases h1 : pos + 1 ≤ i ∧ i < pos + 1 + bs.length
      · rw [if_pos h1, if_pos (by simp only [List.length_cons]; omega)]
        have hi : i - pos = (i - (pos + 1)) + 1 := by omega
        rw [hi, List.getElem?_cons]
        simp
      · rw [if_neg h1, List.getElem?_set]
        by_cases h2 : pos = i
        · subst h2
          rw [if_pos rfl, if_pos (by simp only [List.length_cons] at hle ⊢; omega),
            if_pos (by simp only [List.length_cons]; omega)]
          simp
        · rw [if_neg h2, if_neg (by simp only [List.length_cons]; omega)]

/-- Failure shape of `put`: nothing changes when the bytes do not fit. -/
theorem put_too_long {p : RawPage} {d : List Nat} (h : d.length + p.pos > p.data.length) :
    p.put d = (Except.error SpaceNotEnough.mk, p) := by
  rw [put, if_pos h]

/-- Success shape of `put`. -/
theorem put_fits {p : RawPage} {d : List Nat} (h : d.length + p.pos ≤ p.data.length) :
    p.put d = (Except.ok (),
      { p with data := writeBytes p.data p.pos d, pos := p.pos + d.length }) := by
  rw [put, if_neg (by omega)]

/-- Failure shape of `put_str`. -/
theorem put_str_too_long {p : RawPage} {s : List Nat} (h : s.length + p.pos > p.data.length) :
    p.put_str s = (Except.error SpaceNotEnough.mk, p) := by
  rw [put_str, if_pos h]

/-- Success shape of `put_str`. -/
theorem put_str_fits {p : RawPage} {s : List Nat} (h : s.length + p.pos ≤ p.data.length) :
    p.put_str s = (Except.ok (),
      { p with data := writeBytes p.data p.pos s, pos := p.pos + s.length }) := by
  rw [put_str, if_neg (by omega)]

/-- The take/drop description of an in-bounds bulk write. -/
theorem writeBytes_eq_take_append_drop (d data : List Nat) (pos : Nat)
    (h : pos + d.length ≤ data.length) :
    writeBytes data pos d = data.take pos ++ d ++ data.drop (pos + d.length) := by
  apply List.ext_getElem?
  intro i
  rw [getElem?_writeBytes d data pos h i]
  by_cases h1 : i < pos
  · rw [if_neg (by omega), List.append_assoc,
      List.getElem?_append_left (by rw [List.length_take]; omega),
      List.getElem?_take, if_pos h1]
  · by_cases h2 : i < pos + d.length
    · rw [if_pos (by omega), List.append_assoc,
        List.getElem?_append_right (by rw [List.length_take]; omega),
        List.getElem?_append_left (by rw [List.length_take]; omega)]
      congr 1
      rw [List.length_take]
      omega
    · rw [if_neg (by omega), List.append_assoc,
        List.getElem?_append_right (by rw [List.length_take]; omega),
        List.getElem?_append_right (by rw [List.length_take]; omega),
        List.getElem?_drop]
      congr 1
      rw [List.length_take]
      omega

end RawPage

namespace header_page_utils

/-- The scan returns `none` exactly when no scanned position holds a zero
byte (positions past the end of the buffer hold no byte at all, and the scan
aborts there as well). -/
theorem scan_aux_eq_none_iff (data : List Nat) : ∀ (fuel i : Nat),
    scan_aux data i fuel = none ↔ ∀ k, i ≤ k → k < i + fuel → data[k]? ≠ some 0
  | 0, i => by
      simp only [scan_aux, true_iff]
      intro k h1 h2
      omega
  | fuel + 1, i => by
      cases hdi : data[i]? with
      | none =>
        simp only [scan_aux, hdi, true_iff]
        intro k hk _
        have : data.length ≤ i := List.getElem?_eq_none_iff.mp hdi
        rw [List.getElem?_eq_none (by omega)]
        exact fun h => Option.noConfusion h
      | some b =>
        by_cases hb : b = 0
        · subst hb
          simp only [scan_aux, hdi, reduceIte]
          constructor
          · exact fun h => Option.noConfusion h
          · intro h
            exact absurd hdi (h i (Nat.le_refl i) (by omega))
        · simp only [scan_aux, hdi, if_neg hb]
          rw [scan_aux_eq_none_iff data fuel (i + 1)]
          constructor
          · intro h k hk1 hk2
            rcases Nat.eq_or_lt_of_le hk1 with heq | hlt
            · subst heq
              rw [hdi]
              intro hc
              exact hb (Option.some.injEq .. ▸ hc)
            · exact h k hlt (by omega)
          · intro h k hk1 hk2
            exact h k (by omega) (by omega)

/-- The scan finds the first zero byte when there is one in range. -/
theorem scan_aux_eq_some (data : List Nat) : ∀ (fuel i z : Nat), i ≤ z → z < i + fuel →
    data[z]? = some 0 → (∀ j, i ≤ j → j < z → data[j]? ≠ some 0) →
    scan_aux data i fuel = some z
  | 0, i, z, h1, h2, _, _ => by omega
  | fuel + 1, i, z, h1, h2, h0, hmin => by
      rcases Nat.eq_or_lt_of_le h1 with heq | hlt
      · subst heq
        simp only [scan_aux, h0, reduceIte]
      · have hzlen : z < data.length := (List.getElem?_eq_some_iff.mp h0).1
        have hisome : data[i]? = some data[i] := List.getElem?_eq_getElem (by omega)
        have hne : data[i] ≠ 0 := by
          intro hc
          exact hmin i (Nat.le_refl i) hlt (by rw [hisome, hc])
        simp only [scan_aux, hisome, if_neg hne]
        exact scan_aux_eq_some data fuel (i + 1) z (by omega) (by omega) h0
          (fun j hj1 hj2 => hmin j (by omega) hj2)

/-- Paraphrase of `scan_aux_eq_none_iff` for `get_title`. -/
theorem get_title_eq_none_iff (p : RawPage) :
    get_title p = none ↔ ∀ i, i < 32 → p.data[i]? ≠ some 0 := by
  rw [get_title, title_zero_scan, Option.map_eq_none', scan_aux_eq_none_iff]
  constructor
  · intro h k hk
    exact h k (Nat.zero_le k) (by omega)
  · intro h k _ hk
    exact h k (by omega)

/-- Paraphrase of `scan_aux_eq_some` for `get_title`. -/
theorem get_title_eq_of_first_zero (p : RawPage) (z : Nat) (hz : z < 32)
    (h0 : p.data[z]? = some 0) (hmin : ∀ j, j < z → p.data[j]? ≠ some 0) :
    get_title p = some (p.data.take z) := by
  rw [get_title, title_zero_scan,
    scan_aux_eq_some p.data 32 0 z (Nat.zero_le z) (by omega) h0
      (fun j _ hj2 => hmin j hj2)]
  rfl

end header_page_utils

/-- Any single `put` keeps the cursor within the (unchanged) capacity, as long
as it started within it. -/
theorem pos_le_of_put (p : RawPage) (d : List Nat) (ih : p.pos ≤ p.data.length) :
    (p.put d).2.pos ≤ (p.put d).2.data.length := by
  by_cases hc : d.length + p.pos > p.data.length
  · rw [RawPage.put_too_long hc]
    exact ih
  · rw [RawPage.put_fits (by omega)]
    simp only [RawPage.length_writeBytes]
    omega

/-- Any single `put_str` keeps the cursor within the (unchanged) capacity, as
long as it started within it. -/
theorem pos_le_of_put_str (p : RawPage) (s : List Nat) (ih : p.pos ≤ p.data.length) :
    (p.put_str s).2.pos ≤ (p.put_str s).2.data.length := by
  by_cases hc : s.length + p.pos > p.data.length
  · rw [RawPage.put_str_too_long hc]
    exact ih
  · rw [RawPage.put_str_fits (by omega)]
    simp only [RawPage.length_writeBytes]
    omega

/-- Any discriminant byte outside 0..3 makes `from_u8` fail (the
`panic!("unknown content type")` arm). -/
theorem from_u8_eq_none : ∀ (b : Nat), 4 ≤ b → ContentPageType.from_u8 b = none
  | 0, h => absurd h (by omega)
  | 1, h => absurd h (by omega)
  | 2, h => absurd h (by omega)
  | 3, h => absurd h (by omega)
  | _ + 4, _ => rfl

/-- Encoding a discriminant and decoding the byte gives it back. -/
theorem from_u8_toU8 (t : ContentPageType) :
    ContentPageType.from_u8 t.toU8 = some t := by
  cases t <;> rfl

/-- Length of the once-written fresh header buffer. -/
theorem c5_d1_length : c5_d1.length = 4096 := by
  show (RawPage.writeBytes (List.replicate 4096 0) 0 header_page_utils.HEADER_DESP).length = 4096
  rw [RawPage.length_writeBytes, List.length_replicate]

/-- Length after the version write. -/
theorem c5_d2_length : c5_d2.length = 4096 := by
  show (RawPage.writeBytes c5_d1 32 [0, 0, 0, 0]).length = 4096
  rw [RawPage.length_writeBytes, c5_d1_length]

/-- Length after the sector-size write. -/
theorem c5_d3_length : c5_d3.length = 4096 := by
  show (RawPage.writeBytes c5_d2 40 [0, 0, 16, 0]).length = 4096
  rw [RawPage.length_writeBytes, c5_d2_length]

/-- Length after the page-size write. -/
theorem c5_d4_length : c5_d4.length = 4096 := by
  show (RawPage.writeBytes c5_d3 44 [0, 0, 16, 0]).length = 4096
  rw [RawPage.length_writeBytes, c5_d3_length]

/-- The page produced by `init` on a fresh 4096-byte page: the four
successive writes all fit, the buffer ends as `c5_d4` and the cursor at 48. -/
theorem c5_init_eq :
    header_page_utils.init (RawPage.new 0 4096) = ⟨0, c5_d4, 48⟩ := by
  have e1 := RawPage.put_str_fits (p := (RawPage.new 0 4096).seek 0)
    (s := header_page_utils.HEADER_DESP)
    (show header_page_utils.HEADER_DESP.length + 0 ≤ (List.replicate 4096 0).length by
      rw [List.length_replicate]; decide)
  have s1 : header_page_utils.set_title (RawPage.new 0 4096) header_page_utils.HEADER_DESP
      = ⟨0, c5_d1, 23⟩ := by
    show (((RawPage.new 0 4096).seek 0).put_str header_page_utils.HEADER_DESP).2 = _
    rw [e1]
    rfl
  have s2 : header_page_utils.set_version (⟨0, c5_d1, 23⟩ : RawPage) [0, 0, 0, 0]
      = ⟨0, c5_d2, 36⟩ := by
    show (((⟨0, c5_d1, 23⟩ : RawPage).seek 32).put [0, 0, 0, 0]).2 = _
    rw [RawPage.put_fits
      (show ([0, 0, 0, 0] : List Nat).length + 32 ≤ c5_d1.length by rw [c5_d1_length]; decide)]
    rfl
  have s3 : header_page_utils.set_sector_size (⟨0, c5_d2, 36⟩ : RawPage) 4096
      = ⟨0, c5_d3, 44⟩ := by
    show (((⟨0, c5_d2, 36⟩ : RawPage).seek 40).put (RawPage.u32_be_bytes 4096)).2 = _
    rw [RawPage.put_fits
      (show (RawPage.u32_be_bytes 4096).length + 40 ≤ c5_d2.length by
        rw [c5_d2_length]; decide)]
    rfl
  have s4 : header_page_utils.set_page_size (⟨0, c5_d3, 44⟩ : RawPage) 4096
      = ⟨0, c5_d4, 48⟩ := by
    show (((⟨0, c5_d3, 44⟩ : RawPage).seek 44).put (RawPage.u32_be_bytes 4096)).2 = _
    rw [RawPage.put_fits
      (show (RawPage.u32_be_bytes 4096).length + 44 ≤ c5_d3.length by
        rw [c5_d3_length]; decide)]
    rfl
  show header_page_utils.set_page_size (header_page_utils.set_sector_size
    (header_page_utils.set_version (header_page_utils.set_title (RawPage.new 0 4096)
      header_page_utils.HEADER_DESP) [0, 0, 0, 0]) 4096) 4096 = _
  rw [s1, s2, s3, s4]

/-! Claim theorems. -/

/-- C1: the claim asserts that the typed writers round-trip with the typed
readers of the same width for all of 8/16/32/64 bits. This evaluation shows
that widths 8, 32 and 64 round-trip, but the 16-bit pair does not: writing
the 16-bit value 258 (0x0102) and reading it back yields 513 (0x0201),
because `put_u16` encodes little-endian (`to_le_bytes`, in a variable
misleadingly named `data_be`) while `get_u16` decodes big-endian
(`from_be_bytes`). -/
theorem u16_put_get_byte_swap_eval :
    (((RawPage.new 0 16).seek 0).put_u16 258).2.get_u16 0 = some 513 ∧
    513 ≠ 258 ∧
    ((((RawPage.new 0 16).seek 3).put_u8 200).bind (fun q => q.get_u8 3)) = some 200 ∧
    ((((RawPage.new 0 16).seek 4).put_u32 305419896).2.get_u32 4) = some 305419896 ∧
    ((((RawPage.new 0 16).seek 8).put_u64 1234605616436508552).2.get_u64 8) =
      some 1234605616436508552 := by
  decide

/-- C2: `put` (and `put_str` on the UTF-8 bytes of its argument) is
all-or-nothing: when the bytes do not fit within capacity it returns the
`SpaceNotEnough` error and leaves cursor and contents exactly as they were;
otherwise it writes the bytes at the cursor and advances the cursor by their
length. -/
theorem put_all_or_nothing (p1 p2 p3 p4 : RawPage) (d1 d2 s3 s4 : List Nat)
    (h1 : d1.length + p1.pos > p1.data.length)
    (h2 : d2.length + p2.pos ≤ p2.data.length)
    (h3 : s3.length + p3.pos > p3.data.length)
    (h4 : s4.length + p4.pos ≤ p4.data.length) :
    p1.put d1 = (Except.error SpaceNotEnough.mk, p1) ∧
    p2.put d2 = (Except.ok (), { p2 with
      data := p2.data.take p2.pos ++ d2 ++ p2.data.drop (p2.pos + d2.length),
      pos := p2.pos + d2.length }) ∧
    p3.put_str s3 = (Except.error SpaceNotEnough.mk, p3) ∧
    p4.put_str s4 = (Except.ok (), { p4 with
      data := p4.data.take p4.pos ++ s4 ++ p4.data.drop (p4.pos + s4.length),
      pos := p4.pos + s4.length }) := by
  refine ⟨RawPage.put_too_long h1, ?_, RawPage.put_str_too_long h3, ?_⟩
  · rw [RawPage.put_fits h2,
      RawPage.writeBytes_eq_take_append_drop d2 p2.data p2.pos (by omega)]
  · rw [RawPage.put_str_fits h4,
      RawPage.writeBytes_eq_take_append_drop s4 p4.data p4.pos (by omega)]

/-- C2 witness: concrete instances of both the failing and the succeeding
branches of `put` and `put_str` on a page of capacity 4. -/
theorem put_all_or_nothing_witness :
    (RawPage.new 0 4).put [1, 2, 3, 4, 5] = (Except.error SpaceNotEnough.mk, RawPage.new 0 4) ∧
    (RawPage.new 0 4).put_str [7, 8] = (Except.ok (), { RawPage.new 0 4 with
      data := (RawPage.new 0 4).data.take 0 ++ [7, 8] ++ (RawPage.new 0 4).data.drop (0 + 2),
      pos := 0 + 2 }) := by
  have h := put_all_or_nothing (RawPage.new 0 4) (RawPage.new 0 4) (RawPage.new 0 4)
    (RawPage.new 0 4) [1, 2, 3, 4, 5] [9] [1, 2, 3, 4, 5] [7, 8]
    (by decide) (by decide) (by decide) (by decide)
  exact ⟨h.1, h.2.2.2⟩

/-- C4 (amended): the invariant `cursor ≤ capacity` holds in every state
reachable from `new` by the write operations `put`, `put_str`, `put_u8`,
`put_u16`, `put_u32`, `put_u64` — `seek` excluded, since it repositions the
cursor with no bounds check and can push it past the capacity (see the
counterexample). -/
theorem cursor_le_capacity_of_reached (p : RawPage) (h : Reached p) :
    p.pos ≤ p.data.length := by
  induction h with
  | new pid size => exact Nat.zero_le _
  | put p d _ ih => exact pos_le_of_put p d ih
  | put_str p s _ ih => exact pos_le_of_put_str p s ih
  | put_u8 p d q _ heq ih =>
      rw [RawPage.put_u8] at heq
      by_cases hc : p.pos < p.data.length
      · rw [if_pos hc] at heq
        cases heq
        simpa only [List.length_set] using ih
      · rw [if_neg hc] at heq
        exact absurd heq (by simp)
  | put_u16 p d _ ih => exact pos_le_of_put p (RawPage.u16_le_bytes d) ih
  | put_u32 p d _ ih => exact pos_le_of_put p (RawPage.u32_be_bytes d) ih
  | put_u64 p d _ ih => exact pos_le_of_put p (RawPage.u64_be_bytes d) ih

/-- C4 witness: the invariant at a concrete reachable state. -/
theorem cursor_le_capacity_of_reached_witness :
    (RawPage.new 0 4096).pos ≤ (RawPage.new 0 4096).data.length :=
  cursor_le_capacity_of_reached (RawPage.new 0 4096) (Reached.new 0 4096)

/-- C4 counterexample: the claim as stated (the invariant survives every
sequence of operations including `seek`) is false: `seek 5000` on a fresh
page of capacity 4096 leaves the cursor at 5000, past the capacity. -/
theorem seek_violates_cursor_invariant :
    ((RawPage.new 0 4096).seek 5000).data.length < ((RawPage.new 0 4096).seek 5000).pos := by
  show (List.replicate 4096 0).length < 5000
  rw [List.length_replicate]
  omega

/-- C10: every header-page setter discards the result of its underlying
sequential write. When the write does not fit, the setter still returns
normally, the page bytes are untouched, and only the cursor has been moved
by the setter's preceding `seek` (to 0, 32, 40, 44 and 2048 respectively). -/
theorem header_setters_discard_space_error
    (p1 p2 p3 p4 p5 : RawPage) (t v : List Nat) (n3 n4 n5 : Nat)
    (h1 : t.length > p1.data.length)
    (h2 : v.length + 32 > p2.data.length)
    (h3 : p3.data.length < 44)
    (h4 : p4.data.length < 48)
    (h5 : p5.data.length < 2052) :
    ((header_page_utils.set_title p1 t).data = p1.data ∧
      (header_page_utils.set_title p1 t).pos = 0) ∧
    ((header_page_utils.set_version p2 v).data = p2.data ∧
      (header_page_utils.set_version p2 v).pos = 32) ∧
    ((header_page_utils.set_sector_size p3 n3).data = p3.data ∧
      (header_page_utils.set_sector_size p3 n3).pos = 40) ∧
    ((header_page_utils.set_page_size p4 n4).data = p4.data ∧
      (header_page_utils.set_page_size p4 n4).pos = 44) ∧
    ((header_page_utils.set_free_list_size p5 n5).data = p5.data ∧
      (header_page_utils.set_free_list_size p5 n5).pos = 2048) := by
  have e1 := RawPage.put_str_too_long (p := p1.seek 0) (s := t)
    (by show t.length + 0 > p1.data.length; omega)
  have e2 := RawPage.put_too_long (p := p2.seek 32) (d := v)
    (by show v.length + 32 > p2.data.length; omega)
  have e3 := RawPage.put_too_long (p := p3.seek 40) (d := RawPage.u32_be_bytes n3)
    (by show 4 + 40 > p3.data.length; omega)
  have e4 := RawPage.put_too_long (p := p4.seek 44) (d := RawPage.u32_be_bytes n4)
    (by show 4 + 44 > p4.data.length; omega)
  have e5 := RawPage.put_too_long (p := p5.seek 2048) (d := RawPage.u32_be_bytes n5)
    (by show 4 + 2048 > p5.data.length; omega)
  refine ⟨⟨?_, ?_⟩, ⟨?_, ?_⟩, ⟨?_, ?_⟩, ⟨?_, ?_⟩, ⟨?_, ?_⟩⟩
  · show (((p1.seek 0).put_str t).2).data = p1.data
    rw [e1]
    rfl
  · show (((p1.seek 0).put_str t).2).pos = 0
    rw [e1]
    rfl
  · show (((p2.seek 32).put v).2).data = p2.data
    rw [e2]
    rfl
  · show (((p2.seek 32).put v).2).pos = 32
    rw [e2]
    rfl
  · show (((p3.seek 40).put (RawPage.u32_be_bytes n3)).2).data = p3.data
    rw [e3]
    rfl
  · show (((p3.seek 40).put (RawPage.u32_be_bytes n3)).2).pos = 40
    rw [e3]
    rfl
  · show (((p4.seek 44).put (RawPage.u32_be_bytes n4)).2).data = p4.data
    rw [e4]
    rfl
  · show (((p4.seek 44).put (RawPage.u32_be_bytes n4)).2).pos = 44
    rw [e4]
    rfl
  · show (((p5.seek 2048).put (RawPage.u32_be_bytes n5)).2).data = p5.data
    rw [e5]
    rfl
  · show (((p5.seek 2048).put (RawPage.u32_be_bytes n5)).2).pos = 2048
    rw [e5]
    rfl

/-- C10 witness: concrete overfull writes through each setter leave the
page bytes unchanged while repositioning only the cursor. -/
theorem header_setters_discard_space_error_witness :
    ((header_page_utils.set_title (RawPage.new 0 2) [1, 2, 3]).data = (RawPage.new 0 2).data ∧
      (header_page_utils.set_title (RawPage.new 0 2) [1, 2, 3]).pos = 0) ∧
    ((header_page_utils.set_version (RawPage.new 0 33) [9, 9]).data = (RawPage.new 0 33).data ∧
      (header_page_utils.set_version (RawPage.new 0 33) [9, 9]).pos = 32) ∧
    ((header_page_utils.set_sector_size (RawPage.new 0 43) 5).data = (RawPage.new 0 43).data ∧
      (header_page_utils.set_sector_size (RawPage.new 0 43) 5).pos = 40) ∧
    ((header_page_utils.set_page_size (RawPage.new 0 47) 5).data = (RawPage.new 0 47).data ∧
      (header_page_utils.set_page_size (RawPage.new 0 47) 5).pos = 44) ∧
    ((header_page_utils.set_free_list_size (RawPage.new 0 10) 5).data = (RawPage.new 0 10).data ∧
      (header_page_utils.set_free_list_size (RawPage.new 0 10) 5).pos = 2048) :=
  header_setters_discard_space_error (RawPage.new 0 2) (RawPage.new 0 33) (RawPage.new 0 43)
    (RawPage.new 0 47) (RawPage.new 0 10) [1, 2, 3] [9, 9] 5 5 5
    (by decide) (by decide) (by decide) (by decide) (by decide)

/-- C6: `set_ty` followed by `ty` returns the same discriminant, for every
discriminant and every wrapped page that physically holds the content-type
byte (capacity at least 17); and when the byte at offset 16 holds any value
outside 0..3 (e.g. 99), `ty` hits the fatal unknown-content-type condition
(modelled as `none`). -/
theorem content_type_roundtrip_and_corrupt (w v : ContentPageWrapper)
    (t : ContentPageType) (b : Nat)
    (hw : 17 ≤ w.raw.data.length) (hb : 4 ≤ b) (hv : v.raw.data[16]? = some b) :
    ((w.set_ty t).bind ContentPageWrapper.ty) = some t ∧ v.ty = none := by
  constructor
  · show (((w.raw.seek CONTENT_TY_OFFSET).put_u8 t.toU8).map
      (fun r => { w with raw := r })).bind ContentPageWrapper.ty = some t
    rw [RawPage.put_u8, if_pos (show (w.raw.seek CONTENT_TY_OFFSET).pos <
      (w.raw.seek CONTENT_TY_OFFSET).data.length from by
        show 16 < w.raw.data.length; omega)]
    show ContentPageWrapper.ty
      { w with raw := { w.raw with data := w.raw.data.set 16 t.toU8, pos := 16 } } = some t
    show ((w.raw.data.set 16 t.toU8)[16]?).bind ContentPageType.from_u8 = some t
    rw [List.getElem?_set_self (by omega)]
    show ContentPageType.from_u8 t.toU8 = some t
    exact from_u8_toU8 t
  · show (v.raw.data[16]?).bind ContentPageType.from_u8 = none
    rw [hv]
    show ContentPageType.from_u8 b = none
    exact from_u8_eq_none b hb

/-- C6 witness: the round-trip for the `Collection` discriminant on a fresh
17-byte content page, and the fatal decode on a page whose byte at offset 16
is 99. -/
theorem content_type_roundtrip_and_corrupt_witness :
    (((ContentPageWrapper.new () (RawPage.new 0 17)).set_ty
        ContentPageType.Collection).bind ContentPageWrapper.ty) =
      some ContentPageType.Collection ∧
    ContentPageWrapper.ty ⟨(), ⟨0, (List.replicate 17 0).set 16 99, 0⟩, 0⟩ = none :=
  content_type_roundtrip_and_corrupt
    (ContentPageWrapper.new () (RawPage.new 0 17))
    ⟨(), ⟨0, (List.replicate 17 0).set 16 99, 0⟩, 0⟩
    ContentPageType.Collection 99
    (by decide) (by decide) (by decide)

/-- C7: `get_title` fails fatally (`none`) exactly when none of the first 32
byte positions of the page holds a zero byte; and when a first zero byte is
present, at position `z < 32`, it returns precisely the bytes strictly before
position `z`. -/
theorem get_title_fails_iff_no_zero (p q : RawPage) (z : Nat) (hz : z < 32)
    (h0 : p.data[z]? = some 0) (hmin : ∀ j, j < z → p.data[j]? ≠ some 0) :
    (header_page_utils.get_title q = none ↔ ∀ i, i < 32 → q.data[i]? ≠ some 0) ∧
    header_page_utils.get_title p = some (p.data.take z) :=
  ⟨header_page_utils.get_title_eq_none_iff q,
   header_page_utils.get_title_eq_of_first_zero p z hz h0 hmin⟩

/-- C7 witness: a page whose first zero byte sits at position 2 yields the
two bytes before it, and the failure criterion instantiated on a concrete
zero-free page. -/
theorem get_title_fails_iff_no_zero_witness :
    (header_page_utils.get_title ⟨0, [1, 2, 3], 0⟩ = none ↔
      ∀ i, i < 32 → (RawPage.mk 0 [1, 2, 3] 0).data[i]? ≠ some 0) ∧
    header_page_utils.get_title ⟨0, [5, 6, 0, 7], 0⟩ =
      some ((RawPage.mk 0 [5, 6, 0, 7] 0).data.take 2) :=
  get_title_fails_iff_no_zero ⟨0, [5, 6, 0, 7], 0⟩ ⟨0, [1, 2, 3], 0⟩ 2
    (by decide) (by decide) (by decide)

/-- C9: the claim says `set_magic_key` stores the 16-bit key at offset 0 and
that `magic_key` then returns that key to the caller. In the code
`magic_key` reads the field and discards it (its body is
`self.raw.get_u16(0);`), returning unit; and the stored field does not even
decode back to the key: writing 258 stores little-endian bytes which
`get_u16` decodes big-endian as 513. -/
theorem magic_key_returns_unit_eval :
    ((ContentPageWrapper.new () (RawPage.new 1 16)).set_magic_key 258).map
        ContentPageWrapper.magic_key = some (some ()) ∧
    ((ContentPageWrapper.new () (RawPage.new 1 16)).set_magic_key 258).bind
        (fun x => x.raw.get_u16 0) = some 513 ∧
    (513 : Nat) ≠ 258 := by
  decide

/-- C8 counterexample: the round-trip fails on a page whose first 32 bytes
are dirty. On a capacity-64 page whose first 32 bytes were previously set to
1, `set_title` with the two-byte zero-free title "ab" ([97, 98]) leaves no
zero byte among the first 32 positions, so `get_title` hits the fatal
no-terminator condition instead of returning the title. -/
theorem set_title_roundtrip_fails_on_dirty_page :
    header_page_utils.get_title (header_page_utils.set_title
      (((RawPage.new 0 64).put (List.replicate 32 1)).2) [97, 98]) ≠ some [97, 98] := by
  decide

/-- C8 (amended): on a freshly created zero-filled page of capacity at least
32, for any title of UTF-8 byte length less than 32 containing no zero byte,
`set_title` followed by `get_title` returns the identical title. (On a page
whose existing bytes leave no zero among the first 32, the round-trip
instead fails fatally — see the counterexample.) -/
theorem set_title_roundtrip_fresh (pid cap : Nat) (t : List Nat)
    (hlen : t.length < 32) (hz : ∀ b ∈ t, b ≠ 0) (hcap : 32 ≤ cap) :
    header_page_utils.get_title
      (header_page_utils.set_title (RawPage.new pid cap) t) = some t := by
  have hwb := RawPage.getElem?_writeBytes t (List.replicate cap 0) 0
    (by simp only [List.length_replicate]; omega)
  have e := RawPage.put_str_fits (p := (RawPage.new pid cap).seek 0) (s := t)
    (by show t.length + 0 ≤ (List.replicate cap 0).length
        simp only [List.length_replicate]; omega)
  have hdata : (header_page_utils.set_title (RawPage.new pid cap) t).data
      = RawPage.writeBytes (List.replicate cap 0) 0 t := by
    show (((RawPage.new pid cap).seek 0).put_str t).2.data = _
    rw [e]
    rfl
  have h0 : (header_page_utils.set_title (RawPage.new pid cap) t).data[t.length]? = some 0 := by
    rw [hdata, hwb t.length, if_neg (by omega), List.getElem?_replicate,
      if_pos (by omega)]
  have hmin : ∀ j, j < t.length →
      (header_page_utils.set_title (RawPage.new pid cap) t).data[j]? ≠ some 0 := by
    intro j hj hc
    rw [hdata, hwb j, if_pos (by omega)] at hc
    exact hz 0 (List.getElem?_mem hc) rfl
  rw [header_page_utils.get_title_eq_of_first_zero _ t.length hlen h0 hmin]
  congr 1
  rw [hdata]
  apply List.ext_getElem?
  intro i
  rw [List.getElem?_take]
  by_cases hi : i < t.length
  · rw [if_pos hi, hwb i, if_pos (by omega), Nat.sub_zero]
  · rw [if_neg hi, List.getElem?_eq_none (by omega)]

/-- C8 witness: the round-trip for the title "ab" on a fresh page of
capacity 32. -/
theorem set_title_roundtrip_fresh_witness :
    header_page_utils.get_title
      (header_page_utils.set_title (RawPage.new 0 32) [97, 98]) = some [97, 98] :=
  set_title_roundtrip_fresh 0 32 [97, 98] (by decide) (by decide) (by decide)

/-- C3: the claim says `from_raw` yields an entries sequence identical in
length, content and order to the N entries written. The code instead
`resize`s the vector to `size` zeros and then `Vec::insert`s (a shifting
insertion) each entry, so the result has length 2·N: the N entries followed
by N leftover zeros. Here, a page holding size 1, link 7 and the single
entry 42 decodes to link 7 and entry vector `[42, 0]` of length 2, not
`[42]`. -/
theorem free_list_from_raw_doubles_entries (p : RawPage)
    (h1 : p.get_u32 2048 = some 1)
    (h2 : p.get_u32 2052 = some 7)
    (h3 : p.get_u32 2056 = some 42) :
    FreeList.from_raw p = some ⟨7, [42, 0]⟩ ∧ ([42, 0] : List Nat).length = 2 := by
  refine ⟨?_, rfl⟩
  simp [FreeList.from_raw, FREE_LIST_OFFSET, List.foldlM, h1, h2, h3]

/-- C3 witness: the evaluation on the concrete page `c3_page`. -/
theorem free_list_from_raw_doubles_entries_witness :
    FreeList.from_raw c3_page = some ⟨7, [42, 0]⟩ ∧ ([42, 0] : List Nat).length = 2 := by
  have g : ∀ k, k < 12 →
      c3_page.data[2048 + k]? = [0, 0, 0, 1, 0, 0, 0, 7, 0, 0, 0, 42][k]? := by
    intro k hk
    show (List.replicate 2048 0 ++
        ([0, 0, 0, 1, 0, 0, 0, 7, 0, 0, 0, 42] ++ List.replicate 2036 0))[2048 + k]? = _
    rw [List.getElem?_append_right (by rw [List.length_replicate]; omega),
      List.length_replicate]
    have hsub : 2048 + k - 2048 = k := by omega
    rw [hsub]
    exact List.getElem?_append_left
      (show k < ([0, 0, 0, 1, 0, 0, 0, 7, 0, 0, 0, 42] : List Nat).length from hk)
  refine free_list_from_raw_doubles_entries c3_page ?_ ?_ ?_
  · rw [RawPage.get_u32,
      show c3_page.data[2048]? = some 0 from g 0 (by omega),
      show c3_page.data[2048 + 1]? = some 0 from g 1 (by omega),
      show c3_page.data[2048 + 2]? = some 0 from g 2 (by omega),
      show c3_page.data[2048 + 3]? = some 1 from g 3 (by omega)]
    rfl
  · rw [RawPage.get_u32,
      show c3_page.data[2052]? = some 0 from g 4 (by omega),
      show c3_page.data[2052 + 1]? = some 0 from g 5 (by omega),
      show c3_page.data[2052 + 2]? = some 0 from g 6 (by omega),
      show c3_page.data[2052 + 3]? = some 7 from g 7 (by omega)]
    rfl
  · rw [RawPage.get_u32,
      show c3_page.data[2056]? = some 0 from g 8 (by omega),
      show c3_page.data[2056 + 1]? = some 0 from g 9 (by omega),
      show c3_page.data[2056 + 2]? = some 0 from g 10 (by omega),
      show c3_page.data[2056 + 3]? = some 42 from g 11 (by omega)]
    rfl

/-- C5: after `init` on a freshly created zero-filled page of capacity 4096,
`get_title` returns the format signature "PipeappleDB Format v0.1" (as its
UTF-8 bytes), `get_version` returns four zero bytes, and `get_sector_size`
and `get_page_size` both return 4096. -/
theorem header_init_fields :
    header_page_utils.get_title (header_page_utils.init (RawPage.new 0 4096)) =
      some header_page_utils.HEADER_DESP ∧
    header_page_utils.get_version (header_page_utils.init (RawPage.new 0 4096)) =
      some [0, 0, 0, 0] ∧
    header_page_utils.get_sector_size (header_page_utils.init (RawPage.new 0 4096)) =
      some 4096 ∧
    header_page_utils.get_page_size (header_page_utils.init (RawPage.new 0 4096)) =
      some 4096 := by
  have w1 : ∀ i, c5_d1[i]? =
      if 0 ≤ i ∧ i < 23 then header_page_utils.HEADER_DESP[i - 0]?
      else (List.replicate 4096 0)[i]? :=
    fun i => RawPage.getElem?_writeBytes header_page_utils.HEADER_DESP
      (List.replicate 4096 0) 0 (by rw [List.length_replicate]; decide) i
  have w2 : ∀ i, c5_d2[i]? =
      if 32 ≤ i ∧ i < 36 then ([0, 0, 0, 0] : List Nat)[i - 32]? else c5_d1[i]? :=
    fun i => RawPage.getElem?_writeBytes [0, 0, 0, 0] c5_d1 32
      (by rw [c5_d1_length]; decide) i
  have w3 : ∀ i, c5_d3[i]? =
      if 40 ≤ i ∧ i < 44 then ([0, 0, 16, 0] : List Nat)[i - 40]? else c5_d2[i]? :=
    fun i => RawPage.getElem?_writeBytes [0, 0, 16, 0] c5_d2 40
      (by rw [c5_d2_length]; decide) i
  have w4 : ∀ i, c5_d4[i]? =
      if 44 ≤ i ∧ i < 48 then ([0, 0, 16, 0] : List Nat)[i - 44]? else c5_d3[i]? :=
    fun i => RawPage.getElem?_writeBytes [0, 0, 16, 0] c5_d3 44
      (by rw [c5_d3_length]; decide) i
  have bt : ∀ j, j < 23 → c5_d4[j]? = header_page_utils.HEADER_DESP[j]? := by
    intro j hj
    rw [w4 j, if_neg (by omega), w3 j, if_neg (by omega), w2 j, if_neg (by omega),
      w1 j, if_pos (by omega), Nat.sub_zero]
  have b23 : c5_d4[23]? = some 0 := by
    rw [w4 23, if_neg (by decide), w3 23, if_neg (by decide), w2 23, if_neg (by decide),
      w1 23, if_neg (by decide), List.getElem?_replicate, if_pos (by decide)]
  have bv : ∀ j, 32 ≤ j → j < 36 → c5_d4[j]? = some 0 := by
    intro j h1 h2
    rw [w4 j, if_neg (by omega), w3 j, if_neg (by omega), w2 j, if_pos (by omega)]
    interval_cases j <;> rfl
  have bs : ∀ j, 40 ≤ j → j < 44 → c5_d4[j]? = ([0, 0, 16, 0] : List Nat)[j - 40]? := by
    intro j h1 h2
    rw [w4 j, if_neg (by omega), w3 j, if_pos (by omega)]
  have bp : ∀ j, 44 ≤ j → j < 48 → c5_d4[j]? = ([0, 0, 16, 0] : List Nat)[j - 44]? := by
    intro j h1 h2
    rw [w4 j, if_pos (by omega)]
  have hHDR : ∀ j, j < 23 → header_page_utils.HEADER_DESP[j]? ≠ some 0 := by decide
  refine ⟨?_, ?_, ?_, ?_⟩
  · rw [c5_init_eq]
    have h0 : (⟨0, c5_d4, 48⟩ : RawPage).data[23]? = some 0 := b23
    have hmin : ∀ j, j < 23 → (⟨0, c5_d4, 48⟩ : RawPage).data[j]? ≠ some 0 := by
      intro j hj hc
      rw [show (⟨0, c5_d4, 48⟩ : RawPage).data[j]? = c5_d4[j]? from rfl, bt j hj] at hc
      exact hHDR j hj hc
    rw [header_page_utils.get_title_eq_of_first_zero _ 23 (by omega) h0 hmin]
    rfl
  · rw [c5_init_eq, header_page_utils.get_version]
    rw [show (⟨0, c5_d4, 48⟩ : RawPage).data[32]? = some 0 from bv 32 (by omega) (by omega),
      show (⟨0, c5_d4, 48⟩ : RawPage).data[33]? = some 0 from bv 33 (by omega) (by omega),
      show (⟨0, c5_d4, 48⟩ : RawPage).data[34]? = some 0 from bv 34 (by omega) (by omega),
      show (⟨0, c5_d4, 48⟩ : RawPage).data[35]? = some 0 from bv 35 (by omega) (by omega)]
    rfl
  · rw [c5_init_eq]
    show RawPage.get_u32 ⟨0, c5_d4, 48⟩ 40 = some 4096
    rw [RawPage.get_u32]
    rw [show (⟨0, c5_d4, 48⟩ : RawPage).data[40]? = some 0 from bs 40 (by omega) (by omega),
      show (⟨0, c5_d4, 48⟩ : RawPage).data[40 + 1]? = some 0 from bs 41 (by omega) (by omega),
      show (⟨0, c5_d4, 48⟩ : RawPage).data[40 + 2]? = some 16 from bs 42 (by omega) (by omega),
      show (⟨0, c5_d4, 48⟩ : RawPage).data[40 + 3]? = some 0 from bs 43 (by omega) (by omega)]
    rfl
  · rw [c5_init_eq]
    show RawPage.get_u32 ⟨0, c5_d4, 48⟩ 44 = some 4096
    rw [RawPage.get_u32]
    rw [show (⟨0, c5_d4, 48⟩ : RawPage).data[44]? = some 0 from bp 44 (by omega) (by omega),
      show (⟨0, c5_d4, 48⟩ : RawPage).data[44 + 1]? = some 0 from bp 45 (by omega) (by omega),
      show (⟨0, c5_d4, 48⟩ : RawPage).data[44 + 2]? = some 16 from bp 46 (by omega) (by omega),
      show (⟨0, c5_d4, 48⟩ : RawPage).data[44 + 3]? = some 0 from bp 47 (by omega) (by omega)]
    rfl

end PoloPage
